import Mathlib

/-!
Verification of the monitoring core of the CPU alert tracker.

The development shallowly embeds the two Python modules:

* `pid_monitor.py` — `get_top_processes` (prime CPU counters, sleep 0.8s,
  re-read, filter ignored processes, sort descending, truncate to `n`),
  the alert computation of `ProcessMonitorApp.refresh_top_processes`,
  `ProcessMonitorApp.terminate_process`, and the rolling CPU history of
  `CPUGraph.refresh`.
* `ids_monitor.py` — `monitor_process_activity`.

CPU percentages (Python floats that psutil derives from counter deltas)
are modelled as rationals; their role in the program is purely ordered
comparison and display. Interaction with the OS (psutil) is modelled by
explicit per-process environments: each psutil call site becomes a field
holding either the returned value or `none` / an error, standing for the
exception the `try`/`except` blocks catch.
-/

namespace CpuAlertTracker

/-- Constant `CPU_ALERT_THRESHOLD = 80` from pid_monitor.py line 9. -/
def CPU_ALERT_THRESHOLD : ℚ := 80

/-- Constant `TOP_N = 3` from pid_monitor.py line 10. -/
def TOP_N : Nat := 3

/-- Constant `IGNORED_PIDS` (pids 0 and 4) from pid_monitor.py line 11 (a Python set;
membership is all the program uses, so a list with `∈` is faithful). -/
def IGNORED_PIDS : List Nat := [0, 4]

/-- Constant `IGNORED_NAMES` (the System Idle Process and System names) from
pid_monitor.py line 12. -/
def IGNORED_NAMES : List String := ["System Idle Process", "System"]

/-- The settle interval `time.sleep(0.8)` from pid_monitor.py line 21,
in seconds. -/
def SETTLE_INTERVAL : ℚ := 8 / 10

/-- One OS process as seen by `get_top_processes` during a pass.
`nameR`, `primeR` and `cpuR` model the psutil calls `p.name()`,
the first (priming) `p.cpu_percent(interval=None)` and the second
(settled) `p.cpu_percent(interval=None)`; `none` stands for the call
raising (process vanished, access denied, ...), which the code catches. -/
structure ProcSrc where
  pid : Nat
  nameR : Option String
  primeR : Option ℚ
  cpuR : Option ℚ
deriving DecidableEq, Repr

/-- Events of one sampling pass, in program order: the priming reads of
the first loop, the `time.sleep`, then the settled reads. -/
inductive SampleEvent where
  | primeRead (pid : Nat)
  | sleep (seconds : ℚ)
  | cpuRead (pid : Nat)
deriving DecidableEq, Repr

/-- The order in which the call `proc_list.sort(reverse=True)` emits the
`(cpu, pid, name)` tuples: `tupGe a b` holds when tuple `a` may appear
before tuple `b`, i.e. `b ≤ a` in the lexicographic tuple order. -/
def tupGe (a b : ℚ × Nat × String) : Prop :=
  b.1 < a.1 ∨ (b.1 = a.1 ∧ (b.2.1 < a.2.1 ∨ (b.2.1 = a.2.1 ∧ b.2.2 ≤ a.2.2)))

instance : DecidableRel tupGe := fun a b => by
  unfold tupGe
  infer_instance

instance : IsTotal (ℚ × Nat × String) tupGe := by
  constructor
  intro a b
  rcases lt_trichotomy a.1 b.1 with h1 | h1 | h1
  · exact Or.inr (Or.inl h1)
  · rcases lt_trichotomy a.2.1 b.2.1 with h2 | h2 | h2
    · exact Or.inr (Or.inr ⟨h1, Or.inl h2⟩)
    · rcases le_total a.2.2 b.2.2 with h3 | h3
      · exact Or.inr (Or.inr ⟨h1, Or.inr ⟨h2, h3⟩⟩)
      · exact Or.inl (Or.inr ⟨h1.symm, Or.inr ⟨h2.symm, h3⟩⟩)
    · exact Or.inl (Or.inr ⟨h1.symm, Or.inl h2⟩)
  · exact Or.inl (Or.inl h1)

instance : IsTrans (ℚ × Nat × String) tupGe := by
  constructor
  rintro a b c (h1 | ⟨h1, h1'⟩) (h2 | ⟨h2, h2'⟩)
  · exact Or.inl (h2.trans h1)
  · exact Or.inl (h2 ▸ h1)
  · exact Or.inl (h1 ▸ h2)
  · refine Or.inr ⟨h2.trans h1, ?_⟩
    rcases h1' with h3 | ⟨h3, h3'⟩ <;> rcases h2' with h4 | ⟨h4, h4'⟩
    · exact Or.inl (h4.trans h3)
    · exact Or.inl (h4 ▸ h3)
    · exact Or.inl (h3 ▸ h4)
    · exact Or.inr ⟨h4.trans h3, h4'.trans h3'⟩

/-- The second loop of `get_top_processes` (pid_monitor.py lines 22-30):
for each process, skip it when its pid is ignored, its name is ignored, or
a psutil call raises; otherwise record `(cpu, pid, name)`.  Returns the
trace of settled `cpu_percent` calls together with the collected list.
Note `p.pid in IGNORED_PIDS or p.name() in IGNORED_NAMES` short-circuits:
when the pid is ignored, `p.name()` is never called; and the `cpu_percent`
call happens (and may raise) even though its result may be discarded. -/
def samplePass : List ProcSrc → List SampleEvent × List (ℚ × Nat × String)
  | [] => ([], [])
  | p :: ps =>
    let rest := samplePass ps
    if p.pid ∈ IGNORED_PIDS then rest
    else
      match p.nameR with
      | none => rest
      | some nm =>
        if nm ∈ IGNORED_NAMES then rest
        else
          match p.cpuR with
          | none => (SampleEvent.cpuRead p.pid :: rest.1, rest.2)
          | some c => (SampleEvent.cpuRead p.pid :: rest.1, (c, p.pid, nm) :: rest.2)

/-- The contribution of one process to `proc_list`: `some (cpu, pid, name)`
when it survives the filters and both psutil calls succeed, else `none`. -/
def collectSample (p : ProcSrc) : Option (ℚ × Nat × String) :=
  if p.pid ∈ IGNORED_PIDS then none
  else
    match p.nameR with
    | none => none
    | some nm =>
      if nm ∈ IGNORED_NAMES then none
      else
        match p.cpuR with
        | none => none
        | some c => some (c, p.pid, nm)

theorem samplePass_snd_eq_filterMap (ps : List ProcSrc) :
    (samplePass ps).2 = ps.filterMap collectSample := by
  induction ps with
  | nil => rfl
  | cons p ps ih =>
    simp only [samplePass, collectSample, List.filterMap_cons]
    split
    · simpa using ih
    · cases h : p.nameR with
      | none => simpa using ih
      | some nm =>
        by_cases h2 : nm ∈ IGNORED_NAMES
        · simp [h2, ih]
        · cases h3 : p.cpuR <;> simp [h2, ih]

/-- Function `get_top_processes(n)` (pid_monitor.py lines 14-32), as a function
of the two process enumerations (one for the priming loop, one for the sampling loop;
`psutil.process_iter` is called once for each, and the set of live
processes may differ between them).  Produces the event trace of the pass
and the returned list: `proc_list.sort(reverse=True)` sorted descending
by the whole `(cpu, pid, name)` tuple, then truncated by `proc_list[:n]`. -/
def get_top_processesRun (primeProcs procs : List ProcSrc) (n : Nat) :
    List SampleEvent × List (ℚ × Nat × String) :=
  let pass := samplePass procs
  (primeProcs.map (fun p => SampleEvent.primeRead p.pid) ++
     SampleEvent.sleep SETTLE_INTERVAL :: pass.1,
   (List.insertionSort tupGe pass.2).take n)

/-- The value `get_top_processes(n)` returns. -/
def get_top_processes (primeProcs procs : List ProcSrc) (n : Nat) :
    List (ℚ × Nat × String) :=
  (get_top_processesRun primeProcs procs n).2

theorem get_top_processes_eq (primeProcs procs : List ProcSrc) (n : Nat) :
    get_top_processes primeProcs procs n =
      (List.insertionSort tupGe (procs.filterMap collectSample)).take n := by
  simp [get_top_processes, get_top_processesRun, samplePass_snd_eq_filterMap]

theorem collectSample_some {p : ProcSrc} {t : ℚ × Nat × String}
    (hc : collectSample p = some t) :
    p.pid ∉ IGNORED_PIDS ∧ p.nameR = some t.2.2 ∧ t.2.2 ∉ IGNORED_NAMES ∧
      p.cpuR = some t.1 ∧ t.2.1 = p.pid := by
  by_cases h1 : p.pid ∈ IGNORED_PIDS
  · simp [collectSample, h1] at hc
  · cases h2 : p.nameR with
    | none => simp [collectSample, h1, h2] at hc
    | some nm =>
      by_cases h3 : nm ∈ IGNORED_NAMES
      · simp [collectSample, h1, h2, h3] at hc
      · cases h4 : p.cpuR with
        | none => simp [collectSample, h1, h2, h3, h4] at hc
        | some c =>
          simp only [collectSample, h1, if_neg h1, h2, if_neg h3, h4] at hc
          cases hc
          exact ⟨h1, rfl, h3, rfl, rfl⟩

theorem mem_get_top_processes {primeProcs procs : List ProcSrc} {n : Nat}
    {t : ℚ × Nat × String} (h : t ∈ get_top_processes primeProcs procs n) :
    ∃ p ∈ procs, collectSample p = some t := by
  rw [get_top_processes_eq] at h
  have h2 := (List.take_sublist n _).subset h
  rw [List.mem_insertionSort] at h2
  exact List.mem_filterMap.mp h2

/-- The alert computation of `ProcessMonitorApp.refresh_top_processes`
(pid_monitor.py lines 207-228): `alert_found` starts `False` and is set
`True` for every retained row whose `cpu > CPU_ALERT_THRESHOLD`; the
table/tray rendering consumes the flag and is presentation.  The rows
iterated are exactly `get_top_processes(TOP_N)`. -/
def refresh_top_processes_alert (primeProcs procs : List ProcSrc) : Bool :=
  (get_top_processes primeProcs procs TOP_N).foldl
    (fun alert_found t => if CPU_ALERT_THRESHOLD < t.1 then true else alert_found)
    false

theorem foldl_alert_eq_any (l : List (ℚ × Nat × String)) (b : Bool) :
    l.foldl (fun alert_found t =>
        if CPU_ALERT_THRESHOLD < t.1 then true else alert_found) b =
      (b || l.any fun t => decide (CPU_ALERT_THRESHOLD < t.1)) := by
  induction l generalizing b with
  | nil => simp
  | cons t ts ih =>
    rw [List.foldl_cons, ih, List.any_cons]
    by_cases h : CPU_ALERT_THRESHOLD < t.1
    · simp [h]
    · simp [h]

/-- C1: `alert_found` is true iff some retained `(cpu, pid, name)` row has
`cpu` strictly above the threshold (the comparison at pid_monitor.py lines
224-226 is `cpu > CPU_ALERT_THRESHOLD`); in particular a process sitting
exactly at the threshold (cpu = 80 against threshold 80) raises no alert. -/
theorem alert_active_iff_exceeds_threshold :
    (∀ primeProcs procs,
        refresh_top_processes_alert primeProcs procs = true ↔
          ∃ t ∈ get_top_processes primeProcs procs TOP_N,
            CPU_ALERT_THRESHOLD < t.1) ∧
    refresh_top_processes_alert [] [⟨5, some "python.exe", none, some 80⟩] = false := by
  constructor
  · intro pp procs
    rw [refresh_top_processes_alert, foldl_alert_eq_any]
    simp
  · decide

/-- C3: the result of `get_top_processes` holds at most `n` rows
(`proc_list[:n]` at pid_monitor.py line 32), and the pass run by the GUI
retains `TOP_N = 3` of them. -/
theorem get_top_processes_length_le :
    (∀ primeProcs procs n,
        (get_top_processes primeProcs procs n).length ≤ n) ∧
    TOP_N = 3 := by
  refine ⟨fun pp procs n => ?_, rfl⟩
  rw [get_top_processes_eq]
  simp [List.length_take]

/-- C4: a process whose pid is ignored or whose name is ignored never
contributes a row (the `continue` at pid_monitor.py lines 25-26), with the
default ignore sets of lines 11-12. -/
theorem ignored_never_in_ranked :
    (∀ primeProcs procs n t, t ∈ get_top_processes primeProcs procs n →
        t.2.1 ∉ IGNORED_PIDS ∧ t.2.2 ∉ IGNORED_NAMES) ∧
    IGNORED_PIDS = [0, 4] ∧
    IGNORED_NAMES = ["System Idle Process", "System"] := by
  refine ⟨fun pp procs n t ht => ?_, rfl, rfl⟩
  obtain ⟨p, _, hc⟩ := mem_get_top_processes ht
  obtain ⟨hpid, _, hnm, _, hpideq⟩ := collectSample_some hc
  exact ⟨hpideq ▸ hpid, hnm⟩

/-- Witness for C4 at a concrete pass. -/
theorem ignored_never_in_ranked_witness :
    ((50 : ℚ), 10, "chrome.exe").2.1 ∉ IGNORED_PIDS ∧
    ((50 : ℚ), 10, "chrome.exe").2.2 ∉ IGNORED_NAMES :=
  ignored_never_in_ranked.1 [] [⟨10, some "chrome.exe", none, some 50⟩] 3
    (50, 10, "chrome.exe") (by decide)

/-- The ranking order claimed by the spec for C2: `cpu_percent`
descending, ties broken by ascending `pid` (`a` may precede `b` when `a`
has strictly larger cpu, or equal cpu and `a.pid ≤ b.pid`). -/
def specRankOrder (a b : ℚ × Nat × String) : Prop :=
  b.1 < a.1 ∨ (a.1 = b.1 ∧ a.2.1 ≤ b.2.1)

instance : DecidableRel specRankOrder := fun a b => by
  unfold specRankOrder
  infer_instance

/-- Counterexample to C2: two processes with equal cpu_percent (50) and
pids 10 and 20 are ranked with pid 20 FIRST — `proc_list.sort(reverse=True)`
reverses the whole `(cpu, pid, name)` tuple order, so equal-cpu ties come
out in descending pid order, not ascending. -/
theorem ranked_ties_ascending_counterexample :
    ¬ (get_top_processes []
          [⟨10, some "alpha.exe", none, some 50⟩, ⟨20, some "beta.exe", none, some 50⟩] 3
        |>.Pairwise specRankOrder) := by decide

/-- C2 amended: the ranked output is sorted by `cpu_percent` descending,
with equal-cpu ties broken by DESCENDING pid (and, were cpu and pid both
equal, descending name): successive rows are related by `tupGe`, the
reverse of the lexicographic `(cpu, pid, name)` order that
`proc_list.sort(reverse=True)` uses. -/
theorem ranked_sorted_desc_ties_desc_pid :
    ∀ primeProcs procs n,
      (get_top_processes primeProcs procs n).Pairwise tupGe := by
  intro pp procs n
  rw [get_top_processes_eq]
  exact (List.sorted_insertionSort tupGe _).sublist (List.take_sublist n _)

/-- Replace the value returned by the priming read of a process, i.e. by the
`cpu_percent(interval=None)` call — the value line 18 of pid_monitor.py
binds to `_` and discards. -/
def setPrime (g : Nat → Option ℚ) (p : ProcSrc) : ProcSrc :=
  { p with primeR := g p.pid }

theorem samplePass_map_setPrime (g : Nat → Option ℚ) (procs : List ProcSrc) :
    samplePass (procs.map (setPrime g)) = samplePass procs := by
  induction procs with
  | nil => rfl
  | cons p ps ih => simp only [List.map_cons, samplePass, setPrime, ih]

theorem samplePass_fst_all_cpuRead (procs : List ProcSrc) :
    ∀ e ∈ (samplePass procs).1, ∃ pid, e = SampleEvent.cpuRead pid := by
  induction procs with
  | nil => intro e he; cases he
  | cons p ps ih =>
    intro e he
    by_cases h1 : p.pid ∈ IGNORED_PIDS
    · simp only [samplePass, if_pos h1] at he
      exact ih e he
    · cases h2 : p.nameR with
      | none =>
        simp only [samplePass, if_neg h1, h2] at he
        exact ih e he
      | some nm =>
        by_cases h3 : nm ∈ IGNORED_NAMES
        · simp only [samplePass, if_neg h1, h2, if_pos h3] at he
          exact ih e he
        · cases h4 : p.cpuR <;>
            simp only [samplePass, if_neg h1, h2, if_neg h3, h4] at he <;>
            rcases List.mem_cons.mp he with he | he <;>
            first
            | exact ⟨p.pid, he⟩
            | exact ih e he

/-- C5: the pass is a two-phase measurement.  (i) Its event trace is the
priming reads of every enumerated process, then the `time.sleep`, then the
settled reads; (ii) the settle interval is 0.8s, at least the required
0.5s; (iii) the result is unchanged under replacing the whole priming
enumeration or the value of every priming read — the priming values are
discarded; (iv) every reported row carries the value of the corresponding
second (settled) `cpu_percent` read, never the priming read. -/
theorem two_phase_cpu_measurement :
    (∀ primeProcs procs n,
        (get_top_processesRun primeProcs procs n).1 =
          primeProcs.map (fun p => SampleEvent.primeRead p.pid) ++
            SampleEvent.sleep SETTLE_INTERVAL :: (samplePass procs).1 ∧
        ∀ e ∈ (samplePass procs).1, ∃ pid, e = SampleEvent.cpuRead pid) ∧
    (SETTLE_INTERVAL = 8 / 10 ∧ 1 / 2 ≤ SETTLE_INTERVAL) ∧
    (∀ primeProcs primeProcs' procs n,
        get_top_processes primeProcs procs n =
          get_top_processes primeProcs' procs n) ∧
    (∀ g primeProcs procs n,
        get_top_processes primeProcs (procs.map (setPrime g)) n =
          get_top_processes primeProcs procs n) ∧
    (∀ primeProcs procs n t, t ∈ get_top_processes primeProcs procs n →
        ∃ p ∈ procs, p.pid = t.2.1 ∧ p.cpuR = some t.1) := by
  refine ⟨fun pp procs n => ⟨rfl, samplePass_fst_all_cpuRead procs⟩,
    ⟨rfl, by norm_num [SETTLE_INTERVAL]⟩,
    fun pp pp' procs n => rfl,
    fun g pp procs n => ?_,
    fun pp procs n t ht => ?_⟩
  · simp only [get_top_processes, get_top_processesRun, samplePass_map_setPrime]
  · obtain ⟨p, hp, hc⟩ := mem_get_top_processes ht
    obtain ⟨-, -, -, hcpu, hpideq⟩ := collectSample_some hc
    exact ⟨p, hp, hpideq.symm, hcpu⟩

/-- Witness for C5 at a concrete pass: the reported row (42, 9, "worker")
carries the settled read of the process with pid 9, whose priming read
(some 7) was discarded. -/
theorem two_phase_cpu_measurement_witness :
    ∃ p ∈ [ProcSrc.mk 9 (some "worker") (some 7) (some 42)],
      p.pid = ((42 : ℚ), 9, "worker").2.1 ∧ p.cpuR = some ((42 : ℚ), 9, "worker").1 :=
  two_phase_cpu_measurement.2.2.2.2 [] [ProcSrc.mk 9 (some "worker") (some 7) (some 42)]
    3 (42, 9, "worker") (by decide)

theorem collectSample_eq_none_of_fail {p : ProcSrc}
    (h : p.nameR = none ∨ p.cpuR = none) : collectSample p = none := by
  unfold collectSample
  by_cases h1 : p.pid ∈ IGNORED_PIDS
  · simp [h1]
  · rcases h with h | h
    · simp [h1, h]
    · cases h2 : p.nameR with
      | none => simp [h1, h2]
      | some nm => by_cases h3 : nm ∈ IGNORED_NAMES <;> simp [h1, h2, h3, h]

/-- C6: a per-process failure during the sampling loop — `p.name()` or
`p.cpu_percent` raising (process vanished, access denied, any error: the
bare `except:` at pid_monitor.py lines 29-30 catches everything) — only
drops that process: the pass returns exactly what it would have returned
on the batch without it.  A process that vanished between the priming
enumeration and the sampling enumeration (present only in the former) is
likewise silently absent from the result. -/
theorem per_process_failure_isolated :
    (∀ primeProcs xs (p : ProcSrc) ys n,
        p.nameR = none ∨ p.cpuR = none →
        get_top_processes primeProcs (xs ++ p :: ys) n =
          get_top_processes primeProcs (xs ++ ys) n) ∧
    (∀ primeProcs (p : ProcSrc) procs n,
        get_top_processes (primeProcs ++ [p]) procs n =
          get_top_processes primeProcs procs n) := by
  refine ⟨fun pp xs p ys n h => ?_, fun pp p procs n => rfl⟩
  simp only [get_top_processes_eq, List.filterMap_append, List.filterMap_cons,
    collectSample_eq_none_of_fail h]

/-- Witness for C6: a batch where the process with pid 7 raises on its
settled `cpu_percent` read yields the same result as the batch without it. -/
theorem per_process_failure_isolated_witness :
    get_top_processes []
        ([⟨3, some "svc.exe", none, some 12⟩] ++
          ⟨7, some "ghost.exe", none, none⟩ :: [⟨8, some "app.exe", none, some 5⟩]) 3 =
      get_top_processes []
        ([⟨3, some "svc.exe", none, some 12⟩] ++ [⟨8, some "app.exe", none, some 5⟩]) 3 :=
  per_process_failure_isolated.1 [] [⟨3, some "svc.exe", none, some 12⟩]
    ⟨7, some "ghost.exe", none, none⟩ [⟨8, some "app.exe", none, some 5⟩] 3 (Or.inr rfl)

/-! ### ids_monitor.py: `monitor_process_activity` -/

/-- The psutil exceptions distinguished by `monitor_process_activity`
(ids_monitor.py lines 42-47): `psutil.NoSuchProcess`, `psutil.AccessDenied`,
and any other exception (caught by `except Exception as e`, carrying
`str(e)`). -/
inductive PErr where
  | noSuchProcess
  | accessDenied
  | other (msg : String)
deriving DecidableEq, Repr

/-- The OS answers to the psutil calls `monitor_process_activity` makes for
one pid, in source order: `psutil.Process(pid)` construction, `name()`,
`status()`, `cpu_percent(interval=0.1)`, `memory_info().rss` (bytes),
`open_files()` (paths) and `children(recursive=True)` (names).  Each call
either returns a value or raises a `PErr`. -/
structure ProcDetail where
  proc : Except PErr Unit
  name : Except PErr String
  status : Except PErr String
  cpu : Except PErr ℚ
  mem_rss : Except PErr ℚ
  open_files : Except PErr (List String)
  children : Except PErr (List String)

/-- The Python format `f"{x:.2f}"` for the non-negative rationals displayed here
(rounding to two decimals; Python rounds half to even, `round` half up —
the difference is immaterial to every property below, which never compares
two distinct formatted values). -/
def fmt2 (q : ℚ) : String :=
  let c : Int := round (q * 100)
  let f : Nat := (c % 100).toNat
  toString (c / 100) ++ "." ++ (if f < 10 then "0" ++ toString f else toString f)

/-- The one-element lists returned by the three `except` arms of
`monitor_process_activity` (ids_monitor.py lines 42-47). -/
def errorLine : PErr → String
  | .noSuchProcess => "<b>Error:</b> Process not found."
  | .accessDenied => "<b>Error:</b> Access denied to the process."
  | .other m => "<b>Error:</b> " ++ m

/-- The CPU usage line (ids_monitor.py lines 22-28): the red ALERT form
iff `cpu_usage > 80`. -/
def cpuUsageLine (cpu : ℚ) : String :=
  if 80 < cpu then
    "<b>CPU Usage:</b> <span style=\x27color:red; font-weight:bold;\x27>ALERT: High CPU Usage ("
      ++ fmt2 cpu ++ "%)</span>"
  else
    "<b>CPU Usage:</b> " ++ fmt2 cpu ++ "%"

/-- The `try` body of `monitor_process_activity` (ids_monitor.py lines
10-41): the psutil calls in source order, short-circuiting on the first
raised exception, otherwise the `process_info` list it builds (memory is
converted to MB by `rss / (1024 * 1024)`). -/
def monitorBody (d : ProcDetail) : Except PErr (List String) :=
  d.proc.bind fun _ =>
  d.name.bind fun nm =>
  d.status.bind fun st =>
  d.cpu.bind fun cpu =>
  d.mem_rss.bind fun rss =>
  d.open_files.bind fun ofs =>
  d.children.bind fun ch =>
  .ok (("<b>Process Name:</b> " ++ nm) ::
       ("<b>Process Status:</b> " ++ st) ::
       cpuUsageLine cpu ::
       ("<b>Memory Usage:</b> " ++ fmt2 (rss / (1024 * 1024)) ++ " MB") ::
       (ofs.map (fun f => "<b>File Accessed:</b> " ++ f) ++
        ch.map (fun c => "<b>Child Process Executed:</b> " ++ c)))

/-- Function `monitor_process_activity(pid)` (ids_monitor.py lines 8-47): the `try`
body, with each `except` arm converting its exception into a one-element
error list instead of propagating it. -/
def monitor_process_activity (d : ProcDetail) : List String :=
  match monitorBody d with
  | .ok l => l
  | .error e => [errorLine e]

/-- C7: a psutil exception anywhere in the body yields the one-element
list tagged for that exception — process-not-found and access-denied get
their two distinct fixed messages, any other exception the generic
`"<b>Error:</b> " ++ str(e)` — and nothing is ever raised to the caller
(the function is total: every environment yields a list). -/
theorem single_process_errors_distinct_nonfatal :
    (∀ d e, monitorBody d = .error e →
        monitor_process_activity d = [errorLine e]) ∧
    errorLine .noSuchProcess ≠ errorLine .accessDenied ∧
    (∀ m, errorLine (.other m) = "<b>Error:</b> " ++ m) := by
  refine ⟨fun d e h => ?_, by decide, fun m => rfl⟩
  rw [monitor_process_activity, h]

/-- Witness for C7: a pid whose `psutil.Process` construction raises
`NoSuchProcess` yields exactly the not-found singleton. -/
theorem single_process_errors_witness :
    monitor_process_activity
        ⟨.error .noSuchProcess, .ok "x", .ok "running", .ok 1, .ok 0, .ok [], .ok []⟩ =
      [errorLine .noSuchProcess] :=
  single_process_errors_distinct_nonfatal.1
    ⟨.error .noSuchProcess, .ok "x", .ok "running", .ok 1, .ok 0, .ok [], .ok []⟩
    .noSuchProcess rfl

/-- C10: `monitor_process_activity` is total at its public interface and
always returns a non-empty list: the success path starts with the process
name line, and every failure path is a one-element error list. -/
theorem monitor_process_activity_total_nonempty :
    ∀ d, monitor_process_activity d ≠ [] := by
  intro d
  unfold monitor_process_activity monitorBody
  cases d.proc <;> cases d.name <;> cases d.status <;> cases d.cpu <;>
    cases d.mem_rss <;> cases d.open_files <;> cases d.children <;>
    simp [Except.bind]

/-! ### pid_monitor.py: `ProcessMonitorApp.terminate_process` -/

/-- The bounded wait of `proc.wait(timeout=3)` (pid_monitor.py line 251),
in seconds. -/
def TERMINATE_WAIT_TIMEOUT : ℚ := 3

/-- Message `str(e)` of the `psutil.TimeoutExpired` that `proc.wait(timeout=3)`
raises when the process is still alive at the deadline; the except arm
displays it.  Its exact text only matters in being the message of the error
dialog, so it is modelled as a fixed constant string. -/
def timeoutExpiredMsg : String := "psutil.TimeoutExpired timeout after 3 seconds"

/-- The user-visible outcome of one `terminate_process(pid)` call:
the "Process terminated" information dialog of line 252, the critical
error dialog of line 255, or no dialog (the user answered No). -/
inductive TermOutcome where
  | infoTerminated (pid : Nat)
  | errorDialog (msg : String)
  | cancelled
deriving DecidableEq, Repr

/-- The OS/user behaviour one `terminate_process(pid)` call encounters:
`pname` is `psutil.Process(pid)` + `proc.name()` (error = the message of the
exception), `answerYes` the result of the confirmation dialog, `termSig` the
`proc.terminate()` call, and `exitTime` the delay (seconds) after the
signal at which the process actually exits, `none` if it never does. -/
structure TermEnv where
  pname : Except String String
  answerYes : Bool
  termSig : Except String Unit
  exitTime : Option ℚ

/-- Method `ProcessMonitorApp.terminate_process` (pid_monitor.py lines 242-255):
look the process up, confirm, send `terminate()`, then `wait(timeout=3)`;
the success dialog is shown only when the wait confirms exit within the
timeout, and every raised exception (including `TimeoutExpired`) lands in
the error dialog of the `except` arm.  The trailing `refresh_top_processes()`
re-sampling is presentation and not part of the outcome. -/
def terminate_process (pid : Nat) (env : TermEnv) : TermOutcome :=
  match env.pname with
  | .error m => .errorDialog m
  | .ok _nm =>
    if env.answerYes then
      match env.termSig with
      | .error m => .errorDialog m
      | .ok _ =>
        match env.exitTime with
        | some t =>
          if t ≤ TERMINATE_WAIT_TIMEOUT then .infoTerminated pid
          else .errorDialog timeoutExpiredMsg
        | none => .errorDialog timeoutExpiredMsg
    else .cancelled

/-- C8: after the termination signal is sent, the call waits up to the
bounded 3-second timeout: a process that exits within it yields the
success outcome, and a process still alive after 3 seconds yields the
distinct timeout-error outcome, never the success dialog. -/
theorem terminate_bounded_wait_distinct_outcomes :
    TERMINATE_WAIT_TIMEOUT = 3 ∧
    (∀ pid env nm t, env.pname = .ok nm → env.answerYes = true →
        env.termSig = .ok () → env.exitTime = some t → t ≤ 3 →
        terminate_process pid env = .infoTerminated pid) ∧
    (∀ pid env nm, env.pname = .ok nm → env.answerYes = true →
        env.termSig = .ok () → (∀ t, env.exitTime = some t → 3 < t) →
        terminate_process pid env = .errorDialog timeoutExpiredMsg ∧
        ∀ q, terminate_process pid env ≠ .infoTerminated q) := by
  refine ⟨rfl, fun pid env nm t h1 h2 h3 h4 h5 => ?_, fun pid env nm h1 h2 h3 h4 => ?_⟩
  · simp only [terminate_process, h1, h2, h3, h4, if_true]
    rw [if_pos (by simpa [TERMINATE_WAIT_TIMEOUT] using h5)]
  · have hout : terminate_process pid env = .errorDialog timeoutExpiredMsg := by
      simp only [terminate_process, h1, h2, h3, if_true]
      cases he : env.exitTime with
      | none => rfl
      | some t =>
        have h5 : ¬ t ≤ TERMINATE_WAIT_TIMEOUT := by
          simpa [TERMINATE_WAIT_TIMEOUT] using not_le.mpr (h4 t he)
        simp [h5]
    exact ⟨hout, fun q => by rw [hout]; intro h; cases h⟩

/-- Witness for C8: a process exiting 1 second after the signal yields the
success dialog; one that never exits yields the timeout error dialog. -/
theorem terminate_bounded_wait_witness :
    terminate_process 42 ⟨.ok "stuck.exe", true, .ok (), some 1⟩ =
      .infoTerminated 42 ∧
    terminate_process 42 ⟨.ok "stuck.exe", true, .ok (), none⟩ =
      .errorDialog timeoutExpiredMsg :=
  ⟨terminate_bounded_wait_distinct_outcomes.2.1 42
      ⟨.ok "stuck.exe", true, .ok (), some 1⟩ "stuck.exe" 1 rfl rfl rfl rfl (by norm_num),
   (terminate_bounded_wait_distinct_outcomes.2.2 42
      ⟨.ok "stuck.exe", true, .ok (), none⟩ "stuck.exe" rfl rfl rfl
      (fun t ht => by cases ht)).1⟩

/-! ### pid_monitor.py: `CPUGraph.refresh` rolling history -/

/-- The mutable buffers of a `CPUGraph` window: `self.cpu_data` and the
parallel `self.time_data` (pid_monitor.py lines 45-46). -/
structure GraphState where
  cpu_data : List ℚ
  time_data : List ℚ
deriving DecidableEq, Repr

/-- The buffers as `CPUGraph.__init__` leaves them: both empty. -/
def CPUGraph_init : GraphState := ⟨[], []⟩

/-- One `CPUGraph.refresh` tick (pid_monitor.py lines 80-98) acting on the
buffers.  `reading` is `some (cpu, t)` when `psutil.Process(self.pid)` and
`cpu_percent(interval=1)` succeed (with `t` the elapsed-time stamp), and
`none` when they raise `NoSuchProcess`/`AccessDenied` — the window then
stops its timer and closes, leaving the buffers untouched.  On success
both lists are appended to and, when `len(self.cpu_data) > 60`, both are
cut to their last 60 entries (`self.cpu_data[-60:]`). -/
def CPUGraph_refresh (s : GraphState) (reading : Option (ℚ × ℚ)) : GraphState :=
  match reading with
  | none => s
  | some (cpu, t) =>
    let cd := s.cpu_data ++ [cpu]
    let td := s.time_data ++ [t]
    if 60 < cd.length then
      ⟨cd.drop (cd.length - 60), td.drop (td.length - 60)⟩
    else ⟨cd, td⟩

/-- The parallel-buffer invariant: at most 60 retained samples, timestamps
in lockstep with readings. -/
def GraphInv (s : GraphState) : Prop :=
  s.cpu_data.length ≤ 60 ∧ s.time_data.length = s.cpu_data.length

instance : DecidablePred GraphInv := fun s => by
  unfold GraphInv
  infer_instance

/-- C9: the CPU history buffer never exceeds 60 samples.  The invariant
holds initially, every refresh preserves it (a successful refresh appends
one reading to both buffers and truncates both to their most recent 60),
and hence it holds after any sequence of refreshes from a fresh window. -/
theorem cpu_history_bounded_by_60 :
    GraphInv CPUGraph_init ∧
    (∀ s r, GraphInv s → GraphInv (CPUGraph_refresh s r)) ∧
    (∀ readings : List (Option (ℚ × ℚ)),
        GraphInv (readings.foldl CPUGraph_refresh CPUGraph_init)) := by
  have hstep : ∀ s r, GraphInv s → GraphInv (CPUGraph_refresh s r) := by
    rintro s (- | ⟨cpu, t⟩) hs
    · exact hs
    · obtain ⟨hlen, hpar⟩ := hs
      simp only [CPUGraph_refresh, GraphInv]
      split
      next h =>
        simp only [List.length_append, List.length_cons, List.length_nil] at h
        simp only [List.length_drop, List.length_append, List.length_cons,
          List.length_nil]
        omega
      next h =>
        simp only [List.length_append, List.length_cons, List.length_nil] at h
        simp only [List.length_append, List.length_cons, List.length_nil]
        omega
  refine ⟨⟨by simp [CPUGraph_init], rfl⟩, hstep, fun readings => ?_⟩
  have : ∀ s, GraphInv s → GraphInv (readings.foldl CPUGraph_refresh s) := by
    induction readings with
    | nil => exact fun s hs => hs
    | cons r rs ih => exact fun s hs => ih _ (hstep s r hs)
  exact this CPUGraph_init ⟨by simp [CPUGraph_init], rfl⟩

/-- Witness for C9: a full 60-sample buffer refreshed with a new reading
still satisfies the invariant (it is truncated back to 60). -/
theorem cpu_history_bounded_witness :
    GraphInv (CPUGraph_refresh ⟨List.replicate 60 5, List.replicate 60 7⟩
        (some (9, 61))) :=
  cpu_history_bounded_by_60.2.1 ⟨List.replicate 60 5, List.replicate 60 7⟩
    (some (9, 61)) (by constructor <;> simp)

end CpuAlertTracker
